import Mathlib

/-!
Verification of the Azure managed-disk reconciliation module
(`lib/ansible/modules/cloud/azure/azure_rm_managed_disk.py`).

The module's disk-management logic is embedded shallowly: the provider
(Azure SDK, an external collaborator of the module) is modelled as an
explicit `Cloud` state holding the one disk at `(resource_group, name)`
and the virtual machines of the resource group; every mutating provider
call is recorded in an event trace.  Python dictionaries of tags are
modelled as association lists compared with lookup-based (key/value)
equality, Python truthiness of the relevant fields is modelled
explicitly, and the module's `self.fail` / uncaught-exception exits are
modelled as an `error` field that aborts the remaining steps.
-/

namespace ManagedDisk

/-- The two operating-system types admitted by the module's `os_type`
choice list; `generate_managed_disk_property` maps them to the SDK enum
and `managed_disk_to_dict` lower-cases the provider's value, so both
sides of the comparison are modelled by this one type. -/
inductive OsType
  | linux
  | windows
deriving DecidableEq, Repr

/-- A tag mapping (a Python `dict` of string keys and values). -/
abbrev Tags := List (String × String)

/-- Python `dict` equality on tag mappings: the same keys with the same
values, independent of order. -/
def dictEq (a b : Tags) : Bool :=
  a.all (fun p => b.lookup p.1 == some p.2) && b.all (fun p => a.lookup p.1 == some p.2)

/-- Python `==` on two optional tag dicts (`None == None` is `True`,
`None == dict` is `False`). -/
def optTagsEq : Option Tags → Option Tags → Bool
  | none, none => true
  | some a, some b => dictEq a b
  | _, _ => false

/-- The normalized disk representation produced by `managed_disk_to_dict`
from a provider disk resource.  `managed_by` holds the attached VM; the
composition of the provider storing the VM's resource id and
`parse_resource_id(...).get('name')` recovering the final name segment
(both external collaborators: Azure and `msrestazure.tools`) is modelled
by storing the VM name directly. -/
structure DiskDict where
  id : String
  name : String
  location : String
  tags : Option Tags
  create_option : String
  source_uri : Option String
  disk_size_gb : Option Int
  os_type : Option OsType
  storage_account_type : Option String
  managed_by : Option String
deriving DecidableEq, Repr

/-- The module's input record (`module_arg_spec` plus `tags`), after the
argument framework's type coercion and choice validation.  `state` is
`"present"` or `"absent"`; an unset option field is `none`; `managed_by`
distinguishes unset (`none`) from the explicit-detach sentinel
(`some ""`). -/
structure ModArgs where
  resource_group : String
  name : String
  state : String
  location : Option String
  storage_account_type : Option String
  create_option : Option String
  source_uri : Option String
  os_type : Option OsType
  disk_size_gb : Option Int
  managed_by : Option String
  tags : Option Tags
deriving DecidableEq, Repr

/-- The parameter dictionary built by `generate_managed_disk_property`:
`sku` is present exactly when `storage_account_type` was supplied,
`disk_size_gb` and `tags` are always present (possibly `None`),
`creation_data` defaults to the `empty` create option, and
`source_uri` / `source_resource_id` are populated for `import` / `copy`
respectively. -/
structure DiskParams where
  location : String
  tags : Option Tags
  sku : Option String
  disk_size_gb : Option Int
  create_option : String
  source_uri : Option String
  source_resource_id : Option String
  os_type : Option OsType
deriving DecidableEq, Repr

/-- `generate_managed_disk_property` (lines 340-366 of the source):
a pure construction of the provider parameters from the module inputs;
it performs no validation. -/
def generate_managed_disk_property (s : ModArgs) (location : String) : DiskParams :=
  { location := location
    tags := s.tags
    sku := s.storage_account_type
    disk_size_gb := s.disk_size_gb
    create_option :=
      if s.create_option == some "import" then "import"
      else if s.create_option == some "copy" then "copy"
      else "empty"
    source_uri := if s.create_option == some "import" then s.source_uri else none
    source_resource_id := if s.create_option == some "copy" then s.source_uri else none
    os_type := s.os_type }

/-- Python truthiness of `new_disk.get('disk_size_gb')`: the key is always
present, so the test is `None`-or-`0`. -/
def truthyOptInt : Option Int → Bool
  | some n => n != 0
  | none => false

/-- The diff engine `is_different` (lines 381-396), translated clause by
clause: each guard is the Python truthiness test of the corresponding
parameter entry (`is not None` for tags), and each comparison is the
Python `==` of the two values. -/
def is_different (found_disk : DiskDict) (new_disk : DiskParams) : Bool :=
  let resp := false
  let resp :=
    if truthyOptInt new_disk.disk_size_gb &&
        !(found_disk.disk_size_gb == new_disk.disk_size_gb) then true else resp
  let resp :=
    if new_disk.os_type.isSome && !(found_disk.os_type == new_disk.os_type) then true
    else resp
  let resp :=
    match new_disk.sku with
    | some skuName =>
        if !(found_disk.storage_account_type == some skuName) then true else resp
    | none => resp
  let resp :=
    if new_disk.tags.isSome && !(optTagsEq found_disk.tags new_disk.tags) then true
    else resp
  resp

/-- A data-disk entry of a VM's storage profile.  Entries appended by
`attach` carry no name (the provider assigns one later); `detach`
filters entries by name. -/
structure DataDisk where
  lun : Int
  name : Option String
  diskId : Option String
  storage_account_type : Option String
  create_option : Option String
deriving DecidableEq, Repr

/-- A virtual machine of the resource group, reduced to the parts the
module touches. -/
structure VM where
  name : String
  dataDisks : List DataDisk
deriving DecidableEq, Repr

/-- The provider state visible to one invocation: the location of the
resource group, the managed disk at `(resource_group, name)` (or absent),
and the resource group's virtual machines. -/
structure Cloud where
  rgLocation : String
  disk : Option DiskDict
  vms : List VM
deriving DecidableEq, Repr

/-- The mutating provider calls the module can issue. -/
inductive MEvent
  | createOrUpdateDisk (resource_group name : String) (p : DiskParams)
  | deleteDisk (resource_group name : String)
  | updateVm (name : String) (vm : VM)
deriving DecidableEq, Repr

/-- The value of the module's `result` variable: a disk dict (or `None`),
or the literal `True` placeholder used on check-mode and delete paths. -/
inductive StateResult
  | fromDisk (d : Option DiskDict)
  | boolTrue
deriving DecidableEq, Repr

/-- Reading a `result` value as the dict argument passed to
`attach`/`detach`; `boolTrue` has no dict fields (accessing them would
raise, like `True.get` in Python). -/
def toDiskOpt : StateResult → Option DiskDict
  | .fromDisk d => d
  | .boolTrue => none

/-- The canonical resource id of the managed disk at
`(resource group, name)`. -/
def diskIdOf (rg nm : String) : String :=
  "/resourceGroups/" ++ rg ++ "/providers/Microsoft.Compute/disks/" ++ nm

/-- The provider's application of a `disks.create_or_update` call
(external collaborator, modelled as a well-behaved PUT): every field sent
in the parameters is stored; `os_type`, `disk_size_gb` and the sku are
kept (or defaulted) when the parameters omit them, and the attachment is
untouched. -/
def applyDisk (old : Option DiskDict) (rg nm : String) (p : DiskParams) : DiskDict :=
  { id := diskIdOf rg nm
    name := nm
    location := p.location
    tags := p.tags
    create_option := p.create_option
    source_uri :=
      match p.source_uri with
      | some u => some u
      | none => p.source_resource_id
    disk_size_gb :=
      match p.disk_size_gb with
      | some n => some n
      | none => old.bind (fun d => d.disk_size_gb)
    os_type :=
      match p.os_type with
      | some o => some o
      | none => old.bind (fun d => d.os_type)
    storage_account_type :=
      match p.sku with
      | some sk => some sk
      | none =>
          match old with
          | some d => d.storage_account_type
          | none => some "Standard_LRS"
    managed_by := old.bind (fun d => d.managed_by) }

/-- Python `str.lower()`, stated over the character list (structural
recursion, so concrete instances evaluate). -/
def lowerStr (s : String) : String := String.mk (s.data.map Char.toLower)

/-- Case-insensitive match of a data-disk entry's name against the disk
name, as in `d.name.lower() != disk.get('name').lower()`; an unnamed
entry matches nothing. -/
def ddMatchesName (dd : DataDisk) (nm : String) : Bool :=
  match dd.name with
  | some s => lowerStr s == lowerStr nm
  | none => false

/-- `virtual_machines.get` by name within the resource group. -/
def findVm (vms : List VM) (nm : String) : Option VM :=
  vms.find? (fun v => v.name == nm)

/-- The provider's `virtual_machines.create_or_update`: replace the VM of
that name, or add it. -/
def upsertVm (vms : List VM) (nm : String) (vm : VM) : List VM :=
  if vms.any (fun v => v.name == nm) then
    vms.map (fun v => if v.name == nm then vm else v)
  else vms ++ [vm]

/-- Whether a VM's storage profile references the disk (by resource id or
by entry name). -/
def vmRefsDisk (vm : VM) (d : DiskDict) : Bool :=
  vm.dataDisks.any (fun dd => dd.diskId == some d.id || ddMatchesName dd d.name)

/-- The provider's side effect of writing a VM (external collaborator):
the VM list is updated and the disk's recorded attachment follows the
written storage profile - it points at the written VM if that VM now
references the disk, and is cleared if that VM was the recorded holder
and no longer references it. -/
def applyVmWrite (c : Cloud) (vmName : String) (vm : VM) : Cloud :=
  { c with
    vms := upsertVm c.vms vmName vm
    disk :=
      match c.disk with
      | none => none
      | some d =>
          if vmRefsDisk vm d then some { d with managed_by := some vmName }
          else if d.managed_by == some vmName then some { d with managed_by := none }
          else some d }

/-- `detach` (lines 319-325): fetch the VM, drop the data-disk entries
whose name matches the disk's name case-insensitively, fail when nothing
was dropped, otherwise write the VM back.  A `none` disk argument or an
unnamed entry models the `AttributeError` a `None` receiver would raise
in Python. -/
def detach (c : Cloud) (vm_name : String) (disk : Option DiskDict) :
    Except String (Cloud × MEvent) :=
  match findVm c.vms vm_name with
  | none => .error ("Error getting virtual machine " ++ vm_name)
  | some vm =>
    match disk with
    | none => .error "AttributeError"
    | some d =>
      if vm.dataDisks.any (fun dd => dd.name == none) then .error "AttributeError"
      else
        let leftovers := vm.dataDisks.filter (fun dd => !(ddMatchesName dd d.name))
        if leftovers.length == vm.dataDisks.length then
          .error ("No disk with the name " ++ d.name ++ " was found")
        else
          let vm2 := { vm with dataDisks := leftovers }
          .ok (applyVmWrite c vm_name vm2, .updateVm vm_name vm2)

/-- Python `max(luns)` on a nonempty list. -/
def listMax : List Int → Int
  | [] => 0
  | x :: xs => xs.foldl max x

/-- The LUN chosen by `attach`: one above the maximum LUN in use, or 0
when the VM has no data disks. -/
def nextLun (dataDisks : List DataDisk) : Int :=
  let luns := dataDisks.map (fun dd => dd.lun)
  if luns.isEmpty then 0 else listMax luns + 1

/-- `attach` (lines 306-317): fetch the VM, compute the next LUN, append
a data-disk entry referencing the disk by id with attach semantics, and
write the VM back.  A `none` disk argument models the `AttributeError`
of `disk.get('id')` on a `None` result. -/
def attach (c : Cloud) (vm_name : String) (disk : Option DiskDict) :
    Except String (Cloud × MEvent) :=
  match findVm c.vms vm_name with
  | none => .error ("Error getting virtual machine " ++ vm_name)
  | some vm =>
    match disk with
    | none => .error "AttributeError"
    | some d =>
      let lun := nextLun vm.dataDisks
      let data_disk : DataDisk :=
        { lun := lun, name := none, diskId := some d.id
          storage_account_type := d.storage_account_type, create_option := some "attach" }
      let vm2 := { vm with dataDisks := vm.dataDisks ++ [data_disk] }
      .ok (applyVmWrite c vm_name vm2, .updateVm vm_name vm2)

/-- The location default of `exec_module`: `if not self.location`, so an
unset or empty location falls back to the resource group's location. -/
def resolve_location (s : ModArgs) (c : Cloud) : String :=
  match s.location with
  | some l => if l == "" then c.rgLocation else l
  | none => c.rgLocation

/-- The VM name recovered from the disk snapshot's `managed_by` field
(`parse_resource_id(...).get('name')`, then `or ''`); empty when the
disk is absent or unattached. -/
def current_vm_name (disk_instance : Option DiskDict) : String :=
  match disk_instance with
  | none => ""
  | some d => d.managed_by.getD ""

/-- The running state of one `exec_module` invocation: the `changed`
flag, the `result` variable, the provider state, the mutating calls
issued so far, and the pending fatal error (if any). -/
structure ExecResult where
  changed : Bool
  result : StateResult
  cloud : Cloud
  events : List MEvent
  error : Option String
deriving DecidableEq, Repr

/-- The create-or-update block of `exec_module` (lines 274-281): on
`state=present`, decide via `not disk_instance or is_different(...)`,
then either issue the create/update (recording the full normalized
parameters) or, in check mode, set the `True` placeholder. -/
def present_block (s : ModArgs) (check_mode : Bool) (disk_instance : Option DiskDict)
    (location : String) (st : ExecResult) : ExecResult :=
  if s.state == "present" then
    let parameter := generate_managed_disk_property s location
    let need :=
      match disk_instance with
      | none => true
      | some d => is_different d parameter
    if need then
      if check_mode then { st with changed := true, result := .boolTrue }
      else
        let d := applyDisk st.cloud.disk s.resource_group s.name parameter
        { st with
          changed := true
          result := .fromDisk (some d)
          cloud := { st.cloud with disk := some d }
          events := st.events ++ [.createOrUpdateDisk s.resource_group s.name parameter] }
    else st
  else st

/-- The attachment block of `exec_module` (lines 283-294): runs whenever
`managed_by` was supplied (including the empty string), compares it with
the VM name recovered from the original snapshot, and on a difference
sets `changed`, then (outside check mode) detaches from the old VM,
attaches to the new one, and re-reads the disk. -/
def managed_by_block (s : ModArgs) (check_mode : Bool) (disk_instance : Option DiskDict)
    (st : ExecResult) : ExecResult :=
  if st.error.isSome then st
  else
    match s.managed_by with
    | none => st
    | some desired =>
      let vm_name := current_vm_name disk_instance
      if desired == vm_name then st
      else
        let st1 := { st with changed := true }
        if check_mode then st1
        else
          let st2 :=
            if vm_name == "" then st1
            else
              match detach st1.cloud vm_name (toDiskOpt st1.result) with
              | .error e => { st1 with error := some e }
              | .ok (c, ev) => { st1 with cloud := c, events := st1.events ++ [ev] }
          if st2.error.isSome then st2
          else
            let st3 :=
              if desired == "" then st2
              else
                match attach st2.cloud desired (toDiskOpt st2.result) with
                | .error e => { st2 with error := some e }
                | .ok (c, ev) => { st2 with cloud := c, events := st2.events ++ [ev] }
            if st3.error.isSome then st3
            else { st3 with result := .fromDisk st3.cloud.disk }

/-- The delete block of `exec_module` (lines 296-300): on `state=absent`
with an existing snapshot, set `changed`, issue the delete outside check
mode, and set the `True` placeholder result. -/
def absent_block (s : ModArgs) (check_mode : Bool) (disk_instance : Option DiskDict)
    (st : ExecResult) : ExecResult :=
  if st.error.isSome then st
  else if s.state == "absent" && disk_instance.isSome then
    let st1 := { st with changed := true }
    if check_mode then { st1 with result := .boolTrue }
    else
      { st1 with
        result := .boolTrue
        cloud := { st1.cloud with disk := none }
        events := st1.events ++ [.deleteDisk s.resource_group s.name] }
  else st

/-- `exec_module` (lines 258-304) over a fault-free provider: resolve the
location default, read the snapshot once, then run the create/update,
attachment and delete blocks in the source's order. -/
def exec_module (s : ModArgs) (check_mode : Bool) (c : Cloud) : ExecResult :=
  let location := resolve_location s c
  let disk_instance := c.disk
  let st0 : ExecResult :=
    { changed := false, result := .fromDisk disk_instance, cloud := c, events := []
      error := none }
  absent_block s check_mode disk_instance
    (managed_by_block s check_mode disk_instance
      (present_block s check_mode disk_instance location st0))

/-- The possible outcomes of the provider-side `disks.get` call as seen
by `get_managed_disk`: a disk, a `CloudError` (the SDK's type for error
responses, 404 included), or an exception outside `CloudError`. -/
inductive DiskReadOutcome
  | ok (d : DiskDict)
  | cloudError (status : Nat) (msg : String)
  | otherException (msg : String)
deriving DecidableEq, Repr

/-- `get_managed_disk` (lines 407-414): the read is wrapped in
`try ... except CloudError`, whose handler only logs and returns `None`;
exceptions outside `CloudError` propagate. -/
def get_managed_disk : DiskReadOutcome → Except String (Option DiskDict)
  | .ok d => .ok (some d)
  | .cloudError _ _ => .ok none
  | .otherException m => .error m

/-- Modelled from the spec: the argument-validation framework
(`AnsibleModule` with the `required_if` triples of lines 233-237, code of
this repository outside `src/`) rejects `create_option=import` or
`copy` without `source_uri`, and `create_option=empty` without
`disk_size_gb`, before the module body runs. -/
def required_if_check (s : ModArgs) : Except String Unit :=
  if s.create_option == some "import" && s.source_uri == none then
    .error "create_option is import but all of the following are missing: source_uri"
  else if s.create_option == some "copy" && s.source_uri == none then
    .error "create_option is copy but all of the following are missing: source_uri"
  else if s.create_option == some "empty" && s.disk_size_gb == none then
    .error "create_option is empty but all of the following are missing: disk_size_gb"
  else .ok ()

/-- One full invocation: argument validation (modelled from the spec),
then `exec_module`; a validation failure issues no provider call. -/
def run_module (s : ModArgs) (check_mode : Bool) (c : Cloud) : ExecResult :=
  match required_if_check s with
  | .error e =>
      { changed := false, result := .fromDisk none, cloud := c, events := []
        error := some e }
  | .ok _ => exec_module s check_mode c

/-- The condition under which the create-or-update block reports a
change: `state=present` and (`not disk_instance or is_different(...)`). -/
def present_cond (s : ModArgs) (di : Option DiskDict) (loc : String) : Bool :=
  s.state == "present" &&
    (match di with
     | none => true
     | some d => is_different d (generate_managed_disk_property s loc))

/-- The condition under which the attachment block reports a change:
`managed_by` supplied and different from the snapshot's VM name. -/
def managed_cond (s : ModArgs) (di : Option DiskDict) : Bool :=
  match s.managed_by with
  | none => false
  | some desired => !(desired == current_vm_name di)

/-- The condition under which the delete block reports a change:
`state=absent` and the snapshot exists. -/
def absent_cond (s : ModArgs) (di : Option DiskDict) : Bool :=
  s.state == "absent" && di.isSome

/-! Concrete sample inputs used by witness and counterexample theorems. -/

/-- A baseline input: create an empty 4 GB disk `d1` in resource group
`rg`, no attachment request. -/
def specBase : ModArgs :=
  { resource_group := "rg", name := "d1", state := "present", location := some "eastus"
    storage_account_type := none, create_option := some "empty", source_uri := none
    os_type := none, disk_size_gb := some 4, managed_by := none, tags := none }

/-- A provider state with no disk and no VMs. -/
def cloudEmpty : Cloud := { rgLocation := "eastus", disk := none, vms := [] }

/-- A provider disk that already matches `specBase` on every diff-tracked
field, unattached. -/
def diskSample : DiskDict :=
  { id := diskIdOf "rg" "d1", name := "d1", location := "eastus", tags := none
    create_option := "empty", source_uri := none, disk_size_gb := some 4
    os_type := none, storage_account_type := some "Standard_LRS", managed_by := none }

/-- `diskSample`, attached to VM `a`. -/
def diskOnA : DiskDict := { diskSample with managed_by := some "a" }

/-- VM `a`, holding the data-disk entry for `d1` at LUN 0. -/
def vmA : VM :=
  { name := "a"
    dataDisks := [{ lun := 0, name := some "d1", diskId := some (diskIdOf "rg" "d1")
                    storage_account_type := none, create_option := none }] }

/-- VM `b`, holding two unrelated data disks at LUNs 0 and 2. -/
def vmB : VM :=
  { name := "b"
    dataDisks := [{ lun := 0, name := some "x", diskId := none
                    storage_account_type := none, create_option := none },
                  { lun := 2, name := some "y", diskId := none
                    storage_account_type := none, create_option := none }] }

/-- A provider state where `d1` exists attached to VM `a`, and VMs `a`
and `b` exist. -/
def cloudAttachedA : Cloud := { rgLocation := "eastus", disk := some diskOnA, vms := [vmA, vmB] }

/-- A provider state where `d1` exists unattached and VM `vmb` exists
with no data disks. -/
def cloudMatch : Cloud :=
  { rgLocation := "eastus", disk := some diskSample, vms := [{ name := "vmb", dataDisks := [] }] }

/-- Diff parameters declaring a zero disk size (Python-falsy) and nothing
else. -/
def paramsZeroSize : DiskParams :=
  { location := "eastus", tags := none, sku := none, disk_size_gb := some 0
    create_option := "empty", source_uri := none, source_resource_id := none
    os_type := none }

/-- `specBase` with an inconsistent creation mode: `import` without a
source reference. -/
def specImportNoSource : ModArgs :=
  { specBase with create_option := some "import", source_uri := none }

/-- `specBase`, additionally requesting attachment to VM `vmb`. -/
def specAttachVmb : ModArgs := { specBase with managed_by := some "vmb" }

/-- A provider state where `d1` exists unattached and there are no VMs. -/
def cloudDiskOnly : Cloud := { rgLocation := "eastus", disk := some diskSample, vms := [] }

/-- `specBase` with `state=absent`. -/
def specAbsent : ModArgs := { specBase with state := "absent" }

/-- `specBase` with `state=absent` and a request to attach to VM `b`. -/
def specAbsentAttachB : ModArgs :=
  { specBase with state := "absent", managed_by := some "b" }

/-- `specBase` with `state=absent` and an explicit detach request. -/
def specAbsentDetach : ModArgs :=
  { specBase with state := "absent", managed_by := some "" }

/-- `specBase`, additionally requesting attachment to VM `b`. -/
def specPresentAttachB : ModArgs := { specBase with managed_by := some "b" }

/-! Helper lemmas about the blocks of `exec_module`. -/

/-- The diff engine, characterised clause by clause (with the Python
truthiness of `disk_size_gb` made explicit: a zero size never triggers). -/
theorem is_different_iff (found : DiskDict) (p : DiskParams) :
    is_different found p = true ↔
      (p.disk_size_gb ≠ none ∧ p.disk_size_gb ≠ some 0 ∧
        found.disk_size_gb ≠ p.disk_size_gb) ∨
      (p.os_type ≠ none ∧ found.os_type ≠ p.os_type) ∨
      (p.sku ≠ none ∧ found.storage_account_type ≠ p.sku) ∨
      (p.tags ≠ none ∧ optTagsEq found.tags p.tags = false) := by
  unfold is_different truthyOptInt
  rcases hs : p.disk_size_gb with _ | n <;>
  rcases ho : p.os_type with _ | o <;>
  rcases hk : p.sku with _ | sk <;>
  rcases ht : p.tags with _ | t <;>
  by_cases h1 : found.disk_size_gb = p.disk_size_gb <;>
  by_cases h2 : found.os_type = p.os_type <;>
  by_cases h3 : found.storage_account_type = p.sku <;>
  by_cases h4 : optTagsEq found.tags p.tags = false <;>
  simp_all

/-- The create-or-update block never sets an error (the provider is
modelled fault-free). -/
theorem present_block_error (s : ModArgs) (cm : Bool) (di : Option DiskDict)
    (loc : String) (st : ExecResult) :
    (present_block s cm di loc st).error = st.error := by
  simp only [present_block]
  (repeat' split) <;> rfl

/-- The delete block never sets an error. -/
theorem absent_block_error (s : ModArgs) (cm : Bool) (di : Option DiskDict)
    (st : ExecResult) :
    (absent_block s cm di st).error = st.error := by
  simp only [absent_block]
  (repeat' split) <;> rfl

/-- In check mode the attachment block never sets an error. -/
theorem managed_by_block_error_check (s : ModArgs) (di : Option DiskDict)
    (st : ExecResult) :
    (managed_by_block s true di st).error = st.error := by
  simp only [managed_by_block]
  (repeat' split) <;> first | rfl | simp_all

/-- In check mode the create-or-update block leaves the provider state
untouched. -/
theorem present_block_cloud_check (s : ModArgs) (di : Option DiskDict)
    (loc : String) (st : ExecResult) :
    (present_block s true di loc st).cloud = st.cloud := by
  simp only [present_block]
  (repeat' split) <;> first | rfl | simp_all

/-- In check mode the create-or-update block issues no provider call. -/
theorem present_block_events_check (s : ModArgs) (di : Option DiskDict)
    (loc : String) (st : ExecResult) :
    (present_block s true di loc st).events = st.events := by
  simp only [present_block]
  (repeat' split) <;> first | rfl | simp_all

/-- In check mode the attachment block leaves the provider state
untouched. -/
theorem managed_by_block_cloud_check (s : ModArgs) (di : Option DiskDict)
    (st : ExecResult) :
    (managed_by_block s true di st).cloud = st.cloud := by
  simp only [managed_by_block]
  (repeat' split) <;> first | rfl | simp_all

/-- In check mode the attachment block issues no provider call. -/
theorem managed_by_block_events_check (s : ModArgs) (di : Option DiskDict)
    (st : ExecResult) :
    (managed_by_block s true di st).events = st.events := by
  simp only [managed_by_block]
  (repeat' split) <;> first | rfl | simp_all

/-- In check mode the delete block leaves the provider state untouched. -/
theorem absent_block_cloud_check (s : ModArgs) (di : Option DiskDict)
    (st : ExecResult) :
    (absent_block s true di st).cloud = st.cloud := by
  simp only [absent_block]
  (repeat' split) <;> first | rfl | simp_all

/-- In check mode the delete block issues no provider call. -/
theorem absent_block_events_check (s : ModArgs) (di : Option DiskDict)
    (st : ExecResult) :
    (absent_block s true di st).events = st.events := by
  simp only [absent_block]
  (repeat' split) <;> first | rfl | simp_all

/-- The create-or-update block's `changed` flag, as a pure condition. -/
theorem present_block_changed (s : ModArgs) (cm : Bool) (di : Option DiskDict)
    (loc : String) (st : ExecResult) :
    (present_block s cm di loc st).changed = (st.changed || present_cond s di loc) := by
  simp only [present_block, present_cond]
  (repeat' split) <;> simp_all

/-- The attachment block's `changed` flag, as a pure condition (the flag
is set before any fallible provider call of the block). -/
theorem managed_by_block_changed (s : ModArgs) (cm : Bool) (di : Option DiskDict)
    (st : ExecResult) (he : st.error = none) :
    (managed_by_block s cm di st).changed = (st.changed || managed_cond s di) := by
  simp only [managed_by_block, managed_cond, he]
  (repeat' split) <;> simp_all

/-- The delete block's `changed` flag, as a pure condition. -/
theorem absent_block_changed (s : ModArgs) (cm : Bool) (di : Option DiskDict)
    (st : ExecResult) (he : st.error = none) :
    (absent_block s cm di st).changed = (st.changed || absent_cond s di) := by
  simp only [absent_block, absent_cond, he]
  (repeat' split) <;> simp_all

/-- The attachment block never clears the `changed` flag. -/
theorem managed_by_block_changed_mono (s : ModArgs) (cm : Bool) (di : Option DiskDict)
    (st : ExecResult) (h : st.changed = true) :
    (managed_by_block s cm di st).changed = true := by
  simp only [managed_by_block]
  (repeat' split) <;> simp_all

/-- The delete block never clears the `changed` flag. -/
theorem absent_block_changed_mono (s : ModArgs) (cm : Bool) (di : Option DiskDict)
    (st : ExecResult) (h : st.changed = true) :
    (absent_block s cm di st).changed = true := by
  simp only [absent_block]
  (repeat' split) <;> simp_all

/-- When its condition is false, the create-or-update block is the
identity. -/
theorem present_block_id (s : ModArgs) (cm : Bool) (di : Option DiskDict)
    (loc : String) (st : ExecResult) (h : present_cond s di loc = false) :
    present_block s cm di loc st = st := by
  simp only [present_block, present_cond] at *
  (repeat' split) <;> simp_all

/-- When its condition is false, the attachment block is the identity. -/
theorem managed_by_block_id (s : ModArgs) (cm : Bool) (di : Option DiskDict)
    (st : ExecResult) (h : managed_cond s di = false) :
    managed_by_block s cm di st = st := by
  simp only [managed_by_block, managed_cond] at *
  (repeat' split) <;> simp_all

/-- When its condition is false, the delete block is the identity. -/
theorem absent_block_id (s : ModArgs) (cm : Bool) (di : Option DiskDict)
    (st : ExecResult) (h : absent_cond s di = false) :
    absent_block s cm di st = st := by
  simp only [absent_block, absent_cond] at *
  (repeat' split) <;> simp_all

/-- A check-mode run never fails. -/
theorem exec_module_check_error (s : ModArgs) (c : Cloud) :
    (exec_module s true c).error = none := by
  simp only [exec_module]
  rw [absent_block_error, managed_by_block_error_check, present_block_error]

/-- A check-mode run issues no mutating provider call. -/
theorem exec_module_check_events (s : ModArgs) (c : Cloud) :
    (exec_module s true c).events = [] := by
  simp only [exec_module]
  rw [absent_block_events_check, managed_by_block_events_check, present_block_events_check]

/-- A check-mode run leaves the provider state untouched. -/
theorem exec_module_check_cloud (s : ModArgs) (c : Cloud) :
    (exec_module s true c).cloud = c := by
  simp only [exec_module]
  rw [absent_block_cloud_check, managed_by_block_cloud_check, present_block_cloud_check]

/-- On an error-free run, `changed` is the disjunction of the three
block conditions, evaluated on the initial snapshot. -/
theorem exec_module_changed (s : ModArgs) (cm : Bool) (c : Cloud)
    (h : (exec_module s cm c).error = none) :
    (exec_module s cm c).changed =
      ((present_cond s c.disk (resolve_location s c) || managed_cond s c.disk) ||
        absent_cond s c.disk) := by
  simp only [exec_module] at h ⊢
  rw [absent_block_error] at h
  have hPE : (present_block s cm c.disk (resolve_location s c)
      { changed := false, result := .fromDisk c.disk, cloud := c, events := []
        error := none }).error = none := by rw [present_block_error]
  rw [absent_block_changed _ _ _ _ h, managed_by_block_changed _ _ _ _ hPE,
    present_block_changed]
  simp

/-! Claim theorems. -/

/-- C1, counterexample: the diff engine uses Python truthiness on
`disk_size_gb`, so a target that declares the (degenerate) size 0 while
the current size is 4 does not trigger a diff, refuting the claimed
if-and-only-if characterisation at this input. -/
theorem C1_counterexample :
    ¬ (is_different diskSample paramsZeroSize = true ↔
        (paramsZeroSize.disk_size_gb ≠ none ∧
          diskSample.disk_size_gb ≠ paramsZeroSize.disk_size_gb) ∨
        (paramsZeroSize.os_type ≠ none ∧ diskSample.os_type ≠ paramsZeroSize.os_type) ∨
        (paramsZeroSize.sku ≠ none ∧
          diskSample.storage_account_type ≠ paramsZeroSize.sku) ∨
        (paramsZeroSize.tags ≠ none ∧
          optTagsEq diskSample.tags paramsZeroSize.tags = false)) := by
  decide

/-- C1 (amended): the diff engine returns true iff the target declares a
nonzero disk size differing from the current size, or declares an os
type differing from the current one, or declares a storage tier (sku)
differing from the current one, or declares a tag set (including an
empty one) differing from the current one; fields left unset never
trigger a diff, and when the current disk is absent the `state=present`
reconciliation reports changed unconditionally (create path). -/
theorem C1_diff_engine_amended :
    (∀ (found : DiskDict) (p : DiskParams),
        is_different found p = true ↔
          (p.disk_size_gb ≠ none ∧ p.disk_size_gb ≠ some 0 ∧
            found.disk_size_gb ≠ p.disk_size_gb) ∨
          (p.os_type ≠ none ∧ found.os_type ≠ p.os_type) ∨
          (p.sku ≠ none ∧ found.storage_account_type ≠ p.sku) ∨
          (p.tags ≠ none ∧ optTagsEq found.tags p.tags = false)) ∧
    (∀ (s : ModArgs) (check_mode : Bool) (rgLoc : String) (vms : List VM),
        (exec_module { s with state := "present" } check_mode
          { rgLocation := rgLoc, disk := none, vms := vms }).changed = true) := by
  constructor
  · exact is_different_iff
  · intro s cm rgLoc vms
    simp only [exec_module]
    apply absent_block_changed_mono
    apply managed_by_block_changed_mono
    rw [present_block_changed]
    simp [present_cond]

/-- C2, counterexample: with the disk present and identical on every
diff-tracked field but an attachment change requested via `managed_by`,
the run reports changed=true, refuting the claim that every such
invocation reports changed=false. -/
theorem C2_counterexample :
    (exec_module specAttachVmb false cloudMatch).changed = true := by decide

/-- C2 (amended): with `state=present`, the disk existing, the
normalized target identical to the current state on all diff-tracked
fields, and `managed_by` unset or equal to the current attachment, the
run reports changed=false, issues no provider call at all, and leaves
the provider state untouched. -/
theorem C2_no_change_no_apply_amended (s : ModArgs) (cm : Bool) (c : Cloud)
    (d : DiskDict) (hst : s.state = "present") (hd : c.disk = some d)
    (hdiff : is_different d (generate_managed_disk_property s (resolve_location s c)) = false)
    (hmb : s.managed_by = none ∨ s.managed_by = some (current_vm_name c.disk)) :
    exec_module s cm c =
      { changed := false, result := .fromDisk c.disk, cloud := c, events := []
        error := none } := by
  have hp : present_cond s c.disk (resolve_location s c) = false := by
    simp [present_cond, hd, hdiff]
  have hm : managed_cond s c.disk = false := by
    rcases hmb with h | h <;> simp [managed_cond, h]
  have ha : absent_cond s c.disk = false := by
    simp [absent_cond, hst]
  simp only [exec_module]
  rw [present_block_id _ _ _ _ _ hp, managed_by_block_id _ _ _ _ hm,
    absent_block_id _ _ _ _ ha]

/-- C2 witness: the amended theorem applied to the baseline input
against a provider state already matching it. -/
theorem C2_no_change_no_apply_amended_witness :
    exec_module specBase false cloudDiskOnly =
      { changed := false, result := .fromDisk cloudDiskOnly.disk, cloud := cloudDiskOnly
        events := [], error := none } :=
  C2_no_change_no_apply_amended specBase false cloudDiskOnly diskSample rfl rfl
    (by decide) (Or.inl rfl)

/-- C6, counterexample: with `state=absent`, a non-existing disk, and an
attachment request, the run does not report changed=false: the module
sets changed=true and then fails in `attach` (here: the VM lookup), so
the claimed unconditional no-op for non-existing disks is refuted. -/
theorem C6_counterexample :
    (exec_module specAbsentAttachB false cloudEmpty).changed = true ∧
    (exec_module specAbsentAttachB false cloudEmpty).events = [] ∧
    (exec_module specAbsentAttachB false cloudEmpty).error =
      some "Error getting virtual machine b" := by decide

/-- C6 (amended): with `state=absent` and `managed_by` unset or equal to
the current attachment, an existing disk is deleted with changed=true,
and a non-existing disk is a no-op with changed=false and no provider
call. -/
theorem C6_absent_amended (s : ModArgs) (c : Cloud) (hst : s.state = "absent")
    (hmb : s.managed_by = none ∨ s.managed_by = some (current_vm_name c.disk)) :
    (∀ d, c.disk = some d →
      exec_module s false c =
        { changed := true, result := .boolTrue, cloud := { c with disk := none }
          events := [.deleteDisk s.resource_group s.name], error := none }) ∧
    (c.disk = none →
      exec_module s false c =
        { changed := false, result := .fromDisk none, cloud := c, events := []
          error := none }) := by
  have hp : present_cond s c.disk (resolve_location s c) = false := by
    simp [present_cond, hst]
  have hm : managed_cond s c.disk = false := by
    rcases hmb with h | h <;> simp [managed_cond, h]
  constructor
  · intro d hd
    simp only [exec_module]
    rw [present_block_id _ _ _ _ _ hp, managed_by_block_id _ _ _ _ hm]
    simp [absent_block, hst, hd]
  · intro hd
    have ha : absent_cond s c.disk = false := by simp [absent_cond, hd]
    simp only [exec_module]
    rw [present_block_id _ _ _ _ _ hp, managed_by_block_id _ _ _ _ hm,
      absent_block_id _ _ _ _ ha]
    rw [hd]

/-- C6 witness: the amended theorem applied to a delete of an existing
unattached disk. -/
theorem C6_absent_amended_witness :
    exec_module specAbsent false cloudDiskOnly =
      { changed := true, result := .boolTrue, cloud := { cloudDiskOnly with disk := none }
        events := [.deleteDisk specAbsent.resource_group specAbsent.name]
        error := none } :=
  (C6_absent_amended specAbsent cloudDiskOnly rfl (Or.inl rfl)).1 diskSample rfl

/-- C7: a check-mode (dry-run) invocation issues zero mutating provider
calls, never fails, leaves the provider state untouched, and - whenever
the corresponding real invocation completes without error - reports the
same `changed` value as that real invocation would against the same
initial provider state. -/
theorem C7_check_mode (s : ModArgs) (c : Cloud)
    (h : (exec_module s false c).error = none) :
    (exec_module s true c).events = [] ∧
    (exec_module s true c).error = none ∧
    (exec_module s true c).cloud = c ∧
    (exec_module s true c).changed = (exec_module s false c).changed := by
  refine ⟨exec_module_check_events s c, exec_module_check_error s c,
    exec_module_check_cloud s c, ?_⟩
  rw [exec_module_changed s true c (exec_module_check_error s c),
    exec_module_changed s false c h]

/-- C7 witness: the dry-run equivalence at the baseline create input. -/
theorem C7_check_mode_witness :
    (exec_module specBase true cloudEmpty).events = [] ∧
    (exec_module specBase true cloudEmpty).error = none ∧
    (exec_module specBase true cloudEmpty).cloud = cloudEmpty ∧
    (exec_module specBase true cloudEmpty).changed =
      (exec_module specBase false cloudEmpty).changed :=
  C7_check_mode specBase cloudEmpty (by decide)

/-- C8, counterexample: a provider-side read failure other than NotFound
(here a CloudError with status 500) is also swallowed by the
`except CloudError` handler and converted to the Absent state instead of
failing fatally, refuting the claimed fatal ProviderError behaviour. -/
theorem C8_counterexample :
    get_managed_disk (.cloudError 500 "InternalServerError") = .ok none := rfl

/-- C8 (amended): the snapshot read maps every `CloudError` - NotFound
(404) and any other provider error response alike - to the Absent state
without surfacing a failure; only exceptions outside `CloudError`
propagate and abort the reconciliation. -/
theorem C8_read_amended :
    (∀ d, get_managed_disk (.ok d) = .ok (some d)) ∧
    (∀ status msg, get_managed_disk (.cloudError status msg) = .ok none) ∧
    (∀ msg, get_managed_disk (.otherException msg) = .error msg) :=
  ⟨fun _ => rfl, fun _ _ => rfl, fun _ => rfl⟩

/-- C9, counterexample: `generate_managed_disk_property` performs no
validation, so `exec_module` run on a spec with creation mode `import`
and no source reference proceeds to issue the provider create call (with
an empty source) instead of failing first - the claimed defense in depth
inside the normalizer does not exist. -/
theorem C9_counterexample :
    (exec_module specImportNoSource false cloudEmpty).error = none ∧
    (exec_module specImportNoSource false cloudEmpty).events =
      [.createOrUpdateDisk "rg" "d1"
        (generate_managed_disk_property specImportNoSource "eastus")] ∧
    (generate_managed_disk_property specImportNoSource "eastus").source_uri = none := by
  decide

/-- C9 (amended): the invalid combinations (import/copy without source,
empty without size) are rejected before any provider call - but solely
by the argument-framework `required_if` rules (modelled from the spec),
not by the normalizer. -/
theorem C9_validation_amended (s : ModArgs) (check_mode : Bool) (c : Cloud)
    (h : (s.create_option = some "import" ∧ s.source_uri = none) ∨
         (s.create_option = some "copy" ∧ s.source_uri = none) ∨
         (s.create_option = some "empty" ∧ s.disk_size_gb = none)) :
    (run_module s check_mode c).events = [] ∧
    (run_module s check_mode c).error.isSome = true ∧
    (run_module s check_mode c).cloud = c := by
  unfold run_module required_if_check
  rcases h with ⟨h1, h2⟩ | ⟨h1, h2⟩ | ⟨h1, h2⟩ <;> simp [h1, h2]

/-- C9 witness: the amended theorem applied to the import-without-source
input. -/
theorem C9_validation_amended_witness :
    (specImportNoSource.create_option = some "import" ∧
      specImportNoSource.source_uri = none) ∧
    (run_module specImportNoSource false cloudEmpty).events = [] ∧
    (run_module specImportNoSource false cloudEmpty).error.isSome = true ∧
    (run_module specImportNoSource false cloudEmpty).cloud = cloudEmpty :=
  ⟨⟨rfl, rfl⟩,
    C9_validation_amended specImportNoSource false cloudEmpty (Or.inl ⟨rfl, rfl⟩)⟩



theorem findVm_name {vms : List VM} {n : String} {vm : VM}
    (h : findVm vms n = some vm) : vm.name = n := by
  have := List.find?_some h
  simpa using this

theorem findVm_mem {vms : List VM} {n : String} {vm : VM}
    (h : findVm vms n = some vm) : vm ∈ vms :=
  List.mem_of_find?_eq_some h

theorem findVm_map_replace {vms : List VM} {nm n' : String} {vm : VM}
    (hname : vm.name = nm) (hne : n' ≠ nm) :
    findVm (vms.map fun v => if v.name == nm then vm else v) n' = findVm vms n' := by
  induction vms with
  | nil => rfl
  | cons v rest ih =>
    simp only [List.map_cons, findVm] at *
    by_cases hv : (v.name == nm) = true
    · rw [if_pos hv]
      have h1 : (vm.name == n') = false := by
        rw [hname]
        exact beq_eq_false_iff_ne.mpr (Ne.symm hne)
      have h2 : (v.name == n') = false := by
        rw [beq_iff_eq] at hv
        rw [hv]
        exact beq_eq_false_iff_ne.mpr (Ne.symm hne)
      rw [List.find?_cons, List.find?_cons]
      simp only [h1, h2]
      exact ih
    · rw [if_neg hv]
      rw [List.find?_cons, List.find?_cons]
      cases hbv : (v.name == n') <;> simp only [hbv]
      exact ih

theorem findVm_append_single {vms : List VM} {n' : String} {vm : VM}
    (hne : vm.name ≠ n') :
    findVm (vms ++ [vm]) n' = findVm vms n' := by
  induction vms with
  | nil => simp [findVm, hne]
  | cons v rest ih =>
    simp only [List.cons_append, findVm, List.find?_cons] at *
    by_cases hv : v.name = n' <;> simp [hv, ih]

theorem findVm_upsert_ne {vms : List VM} {nm n' : String} {vm : VM}
    (hname : vm.name = nm) (hne : n' ≠ nm) :
    findVm (upsertVm vms nm vm) n' = findVm vms n' := by
  unfold upsertVm
  split
  · exact findVm_map_replace hname hne
  · exact findVm_append_single (by rw [hname]; exact Ne.symm hne)

theorem detach_ok {c : Cloud} {vm_name : String} {d : DiskDict} {vm : VM}
    (hvm : findVm c.vms vm_name = some vm)
    (hany : (vm.dataDisks.any fun dd => dd.name == none) = false)
    (hlen : (vm.dataDisks.filter fun dd => !(ddMatchesName dd d.name)).length ≠
      vm.dataDisks.length) :
    detach c vm_name (some d) =
      .ok (applyVmWrite c vm_name
            { vm with dataDisks := vm.dataDisks.filter fun dd => !(ddMatchesName dd d.name) },
          .updateVm vm_name
            { vm with dataDisks := vm.dataDisks.filter fun dd => !(ddMatchesName dd d.name) }) := by
  simp [detach, hvm, hany, hlen]

theorem detach_err {c : Cloud} {vm_name : String} {d : DiskDict} {vm : VM}
    (hvm : findVm c.vms vm_name = some vm)
    (hany : (vm.dataDisks.any fun dd => dd.name == none) = false)
    (hlen : (vm.dataDisks.filter fun dd => !(ddMatchesName dd d.name)).length =
      vm.dataDisks.length) :
    detach c vm_name (some d) =
      .error ("No disk with the name " ++ d.name ++ " was found") := by
  simp [detach, hvm, hany, hlen]

theorem attach_ok {c : Cloud} {vm_name : String} (d : DiskDict) {vm : VM}
    (hvm : findVm c.vms vm_name = some vm) :
    attach c vm_name (some d) =
      .ok (applyVmWrite c vm_name
            { vm with dataDisks := vm.dataDisks ++
                [{ lun := nextLun vm.dataDisks, name := none, diskId := some d.id
                   storage_account_type := d.storage_account_type
                   create_option := some "attach" }] },
          .updateVm vm_name
            { vm with dataDisks := vm.dataDisks ++
                [{ lun := nextLun vm.dataDisks, name := none, diskId := some d.id
                   storage_account_type := d.storage_account_type
                   create_option := some "attach" }] }) := by
  simp [attach, hvm]

theorem attach_none_err (c : Cloud) (vm_name : String) :
    ∃ e, attach c vm_name none = .error e := by
  unfold attach
  cases h : findVm c.vms vm_name <;> simp



/-- C5: during detach the reconciler removes from the old VM's data-disk
list exactly the entries whose name matches the disk's name
case-insensitively and writes the VM back; if no entry matches (the list
is unchanged by the filter - the first conjunct ties these two
readings together), it fails with the attachment error and does not
write the VM (the error return carries no VM write). -/
theorem C5_detach_spec (c : Cloud) (vm_name : String) (d : DiskDict) (vm : VM)
    (hvm : findVm c.vms vm_name = some vm)
    (hnames : ∀ dd ∈ vm.dataDisks, dd.name ≠ none) :
    ((vm.dataDisks.filter fun dd => !(ddMatchesName dd d.name)).length =
        vm.dataDisks.length ↔
      ∀ dd ∈ vm.dataDisks, ddMatchesName dd d.name = false) ∧
    ((vm.dataDisks.filter fun dd => !(ddMatchesName dd d.name)).length =
        vm.dataDisks.length →
      detach c vm_name (some d) =
        .error ("No disk with the name " ++ d.name ++ " was found")) ∧
    ((vm.dataDisks.filter fun dd => !(ddMatchesName dd d.name)).length ≠
        vm.dataDisks.length →
      detach c vm_name (some d) =
        .ok (applyVmWrite c vm_name
              { vm with dataDisks :=
                  vm.dataDisks.filter fun dd => !(ddMatchesName dd d.name) },
            .updateVm vm_name
              { vm with dataDisks :=
                  vm.dataDisks.filter fun dd => !(ddMatchesName dd d.name) })) := by
  have hany : (vm.dataDisks.any fun dd => dd.name == none) = false := by
    rw [List.any_eq_false]
    intro dd hdd
    simpa using hnames dd hdd
  refine ⟨?_, fun h => detach_err hvm hany h, fun h => detach_ok hvm hany h⟩
  rw [List.filter_length_eq_length]
  constructor
  · intro h dd hdd
    have := h dd hdd
    simpa using this
  · intro h dd hdd
    simpa using h dd hdd

/-- C5 witness: detaching `d1` from VM `a`, which holds a matching
entry. -/
theorem C5_detach_spec_witness :
    detach cloudAttachedA "a" (some diskOnA) =
      .ok (applyVmWrite cloudAttachedA "a"
            { vmA with dataDisks :=
                vmA.dataDisks.filter fun dd => !(ddMatchesName dd diskOnA.name) },
          .updateVm "a"
            { vmA with dataDisks :=
                vmA.dataDisks.filter fun dd => !(ddMatchesName dd diskOnA.name) }) :=
  (C5_detach_spec cloudAttachedA "a" diskOnA vmA (by decide) (by decide)).2.2 (by decide)



/-- Shape of a successful `attach`: the event recorded is a VM write. -/
theorem attach_shape {c : Cloud} {n : String} {dk : Option DiskDict} {c2 : Cloud}
    {ev : MEvent} (h : attach c n dk = .ok (c2, ev)) :
    ∃ m vm, ev = .updateVm m vm := by
  simp only [attach] at h
  (repeat' split at h)
  all_goals
    first
      | exact Except.noConfusion h
      | (injection h with hp
         injection hp with hp1 hp2
         exact ⟨_, _, hp2.symm⟩)

/-- Shape of a successful `detach`: the event recorded is a VM write. -/
theorem detach_shape {c : Cloud} {n : String} {dk : Option DiskDict} {c2 : Cloud}
    {ev : MEvent} (h : detach c n dk = .ok (c2, ev)) :
    ∃ m vm, ev = .updateVm m vm := by
  simp only [detach] at h
  (repeat' split at h)
  all_goals
    first
      | exact Except.noConfusion h
      | (injection h with hp
         injection hp with hp1 hp2
         exact ⟨_, _, hp2.symm⟩)

/-- The delete block on the real (non-check) path: sets `changed`,
clears the disk and appends the delete call. -/
theorem absent_block_delete (s : ModArgs) (di : Option DiskDict) (st : ExecResult)
    (hst : (s.state == "absent" && di.isSome) = true) (he : st.error = none) :
    absent_block s false di st =
      { st with
        changed := true
        result := .boolTrue
        cloud := { st.cloud with disk := none }
        events := st.events ++ [.deleteDisk s.resource_group s.name] } := by
  simp [absent_block, he, hst]

/-- On an error-free real run of the attachment block with a requested
change, the events appended are a nonempty list of VM writes. -/
theorem managed_by_block_events_real (s : ModArgs) (di : Option DiskDict) (st : ExecResult)
    (he : st.error = none) (mb : String) (hmb : s.managed_by = some mb)
    (hne : (mb == current_vm_name di) = false)
    (he2 : (managed_by_block s false di st).error = none) :
    ∃ evs, (managed_by_block s false di st).events = st.events ++ evs ∧ evs ≠ [] ∧
      ∀ e ∈ evs, ∃ n vm, e = .updateVm n vm := by
  simp only [managed_by_block, he, hmb, hne, Option.isSome_none, Bool.false_eq_true,
    if_false] at he2 ⊢
  by_cases hcv : (current_vm_name di == "") = true
  · have hcv' : current_vm_name di = "" := by simpa using hcv
    rw [hcv'] at hne
    simp only [hcv, if_true, hne, Option.isSome_none, Bool.false_eq_true, if_false] at he2 ⊢
    cases hat : attach st.cloud mb (toDiskOpt st.result) with
    | error e => simp [hat] at he2
    | ok p =>
      rcases p with ⟨c3, ev⟩
      simp only [hat] at he2 ⊢
      simp only [Option.isSome_none, Bool.false_eq_true, if_false] at he2 ⊢
      refine ⟨[ev], by simp, by simp, ?_⟩
      intro e hmem
      rw [List.mem_singleton] at hmem
      subst hmem
      exact attach_shape hat
  · have hcvf : (current_vm_name di == "") = false := by
      revert hcv
      cases (current_vm_name di == "") <;> simp
    simp only [hcvf, Bool.false_eq_true, if_false] at he2 ⊢
    cases hdet : detach st.cloud (current_vm_name di) (toDiskOpt st.result) with
    | error e => simp [hdet] at he2
    | ok p =>
      rcases p with ⟨c2, ev1⟩
      simp only [hdet, Option.isSome_none, Bool.false_eq_true, if_false] at he2 ⊢
      by_cases hmbe : (mb == "") = true
      · simp only [hmbe, if_true, Option.isSome_none, Bool.false_eq_true, if_false] at he2 ⊢
        refine ⟨[ev1], by simp, by simp, ?_⟩
        intro e hmem
        rw [List.mem_singleton] at hmem
        subst hmem
        exact detach_shape hdet
      · have hmbf : (mb == "") = false := by
          revert hmbe
          cases (mb == "") <;> simp
        simp only [hmbf, Bool.false_eq_true, if_false] at he2 ⊢
        cases hat : attach c2 mb (toDiskOpt st.result) with
        | error e => simp [hat] at he2
        | ok q =>
          rcases q with ⟨c3, ev2⟩
          simp only [hat, Option.isSome_none, Bool.false_eq_true, if_false] at he2 ⊢
          refine ⟨[ev1, ev2], by simp, by simp, ?_⟩
          intro e hmem
          rw [List.mem_cons, List.mem_singleton] at hmem
          rcases hmem with hmem | hmem <;> subst hmem
          · exact detach_shape hdet
          · exact attach_shape hat

/-- C4: for a disk attached to VM A with desired managed_by=B (both
nonempty, B distinct from A) and no create/update diff, the reconciler
performs a detach-from-A VM write and then an attach-to-B VM write, in
that order, and the data-disk entry appended to B carries LUN one plus
the maximum LUN among B's existing data disks, or 0 if B has none. -/
theorem C4_detach_attach_order_lun (s : ModArgs) (c : Cloud) (d : DiskDict)
    (A B : String) (vmA0 vmB0 : VM)
    (hst : s.state = "present") (hd : c.disk = some d)
    (hmbd : d.managed_by = some A) (hA : A ≠ "")
    (hB : s.managed_by = some B) (hBne : B ≠ "") (hABne : B ≠ A)
    (hdiff : is_different d (generate_managed_disk_property s (resolve_location s c)) = false)
    (hvmA : findVm c.vms A = some vmA0)
    (hnames : ∀ dd ∈ vmA0.dataDisks, dd.name ≠ none)
    (hmatch : ∃ dd ∈ vmA0.dataDisks, ddMatchesName dd d.name = true)
    (hvmB : findVm c.vms B = some vmB0) :
    (exec_module s false c).changed = true ∧
    (exec_module s false c).error = none ∧
    (exec_module s false c).events =
      [.updateVm A { vmA0 with dataDisks := vmA0.dataDisks.filter (fun dd => !(ddMatchesName dd d.name)) },
       .updateVm B { vmB0 with dataDisks := vmB0.dataDisks ++ [{ lun := nextLun vmB0.dataDisks, name := none, diskId := some d.id, storage_account_type := d.storage_account_type, create_option := some "attach" }] }] ∧
    nextLun vmB0.dataDisks =
      (if vmB0.dataDisks = [] then 0
       else listMax (vmB0.dataDisks.map (fun dd => dd.lun)) + 1) := by
  set vmA1 : VM := { vmA0 with dataDisks := vmA0.dataDisks.filter (fun dd => !(ddMatchesName dd d.name)) } with hvmA1
  have hp : present_cond s c.disk (resolve_location s c) = false := by
    simp [present_cond, hd, hdiff]
  have hany : (vmA0.dataDisks.any fun dd => dd.name == none) = false := by
    rw [List.any_eq_false]
    intro dd hdd
    simpa using hnames dd hdd
  have hlen : (vmA0.dataDisks.filter fun dd => !(ddMatchesName dd d.name)).length ≠
      vmA0.dataDisks.length := by
    obtain ⟨dd, hdd, hm⟩ := hmatch
    intro heq
    rw [List.filter_length_eq_length] at heq
    have := heq dd hdd
    simp [hm] at this
  have hdet := detach_ok hvmA hany hlen
  have hnameA : vmA1.name = A := by
    have := findVm_name hvmA
    simpa [hvmA1] using this
  have hfB : findVm (applyVmWrite c A vmA1).vms B = some vmB0 := by
    show findVm (upsertVm c.vms A vmA1) B = some vmB0
    rw [findVm_upsert_ne hnameA hABne]
    exact hvmB
  have hatt := attach_ok d hfB
  have hcur : current_vm_name (some d) = A := by simp [current_vm_name, hmbd]
  have hBA : (B == A) = false := beq_eq_false_iff_ne.mpr hABne
  have hAe : (A == "") = false := beq_eq_false_iff_ne.mpr hA
  have hBe : (B == "") = false := beq_eq_false_iff_ne.mpr hBne
  have ha : absent_cond s (some d) = false := by simp [absent_cond, hst]
  simp only [exec_module]
  rw [present_block_id _ _ _ _ _ hp]
  simp only [managed_by_block, hB, hcur, hBA, hAe, hBe, toDiskOpt, hd, Option.isSome_none,
    Bool.false_eq_true, if_false, hdet, hatt]
  rw [absent_block_id _ _ _ _ ha]
  simp [nextLun]

/-- C10: with `state=absent`, an existing disk, and a `managed_by`
value differing from the current attachment, `changed` is set and the
VM (detach/attach) writes are all performed before the disk delete
call - the attachment pass is neither skipped nor reordered on the
delete path. -/
theorem C10_absent_attachment_order (s : ModArgs) (c : Cloud) (d : DiskDict) (mb : String)
    (hst : s.state = "absent") (hd : c.disk = some d)
    (hmb : s.managed_by = some mb) (hne : mb ≠ current_vm_name c.disk)
    (herr : (exec_module s false c).error = none) :
    (exec_module s false c).changed = true ∧
    ∃ pre, (exec_module s false c).events =
        pre ++ [.deleteDisk s.resource_group s.name] ∧
      pre ≠ [] ∧ ∀ e ∈ pre, ∃ n vm, e = .updateVm n vm := by
  have hp : present_cond s c.disk (resolve_location s c) = false := by
    simp [present_cond, hst]
  have habs : (s.state == "absent" && c.disk.isSome) = true := by simp [hst, hd]
  have hneb : (mb == current_vm_name c.disk) = false := beq_eq_false_iff_ne.mpr hne
  simp only [exec_module] at herr ⊢
  rw [present_block_id _ _ _ _ _ hp] at herr ⊢
  rw [absent_block_error] at herr
  obtain ⟨evs, hev, hevne, hshape⟩ :=
    managed_by_block_events_real s c.disk _ rfl mb hmb hneb herr
  rw [absent_block_delete _ _ _ habs herr]
  have hch := managed_by_block_changed s false c.disk
    { changed := false, result := .fromDisk c.disk, cloud := c, events := []
      error := none } rfl
  refine ⟨?_, evs, ?_, hevne, hshape⟩
  · simp only [hch, managed_cond, hmb, hneb]
  · simp only [hev]
    simp

/-- C4 witness: moving `d1` from VM `a` (LUN 0 entry) to VM `b` (LUNs 0
and 2, so the new entry gets LUN 3). -/
theorem C4_detach_attach_order_lun_witness :
    (exec_module specPresentAttachB false cloudAttachedA).changed = true ∧
    (exec_module specPresentAttachB false cloudAttachedA).error = none ∧
    (exec_module specPresentAttachB false cloudAttachedA).events =
      [.updateVm "a" { vmA with dataDisks := vmA.dataDisks.filter (fun dd => !(ddMatchesName dd diskOnA.name)) },
       .updateVm "b" { vmB with dataDisks := vmB.dataDisks ++ [{ lun := nextLun vmB.dataDisks, name := none, diskId := some diskOnA.id, storage_account_type := diskOnA.storage_account_type, create_option := some "attach" }] }] ∧
    nextLun vmB.dataDisks =
      (if vmB.dataDisks = [] then 0
       else listMax (vmB.dataDisks.map (fun dd => dd.lun)) + 1) :=
  C4_detach_attach_order_lun specPresentAttachB cloudAttachedA diskOnA "a" "b" vmA vmB
    rfl rfl rfl (by decide) rfl (by decide) (by decide) (by decide) (by decide)
    (by decide) (by decide) (by decide)

/-- C10 witness: `state=absent` with an explicit detach request on a
disk attached to VM `a`: the VM write precedes the delete call. -/
theorem C10_absent_attachment_order_witness :
    (exec_module specAbsentDetach false cloudAttachedA).changed = true ∧
    ∃ pre, (exec_module specAbsentDetach false cloudAttachedA).events =
        pre ++ [.deleteDisk specAbsentDetach.resource_group specAbsentDetach.name] ∧
      pre ≠ [] ∧ ∀ e ∈ pre, ∃ n vm, e = .updateVm n vm :=
  C10_absent_attachment_order specAbsentDetach cloudAttachedA diskOnA "" rfl rfl rfl
    (by decide) (by decide)



/-- Lookup of a member key in a duplicate-free association list. -/
theorem lookup_of_mem_nodup {t : Tags} {a b : String}
    (hnd : (t.map Prod.fst).Nodup) (hm : (a, b) ∈ t) : t.lookup a = some b := by
  induction t with
  | nil => cases hm
  | cons p rest ih =>
    rcases p with ⟨k, v⟩
    simp only [List.map_cons, List.nodup_cons, List.mem_map] at hnd
    rcases List.mem_cons.mp hm with h | h
    · injection h with h1 h2
      subst h1
      subst h2
      simp [List.lookup]
    · have hka : ¬(a == k) = true := by
        intro hak
        rw [beq_iff_eq] at hak
        subst hak
        exact hnd.1 ⟨(a, b), h, rfl⟩
      have : (a == k) = false := by
        revert hka
        cases (a == k) <;> simp
      simp only [List.lookup, this]
      exact ih hnd.2 h

/-- Python dict equality is reflexive on duplicate-free tag dicts. -/
theorem dictEq_refl {t : Tags} (hnd : (t.map Prod.fst).Nodup) : dictEq t t = true := by
  unfold dictEq
  rw [Bool.and_self]
  rw [List.all_eq_true]
  intro p hp
  rcases p with ⟨a, b⟩
  simp only [lookup_of_mem_nodup hnd hp]
  simp

/-- The diff engine ignores the attachment field. -/
theorem is_different_erase (d : DiskDict) (p : DiskParams) (x : Option String) :
    is_different { d with managed_by := x } p = is_different d p := rfl

/-- A disk freshly written from the parameters never differs from
those parameters. -/
theorem is_different_applyDisk (old : Option DiskDict) (rg nm : String) (p : DiskParams)
    (htags : ∀ t, p.tags = some t → (t.map Prod.fst).Nodup) :
    is_different (applyDisk old rg nm p) p = false := by
  unfold is_different applyDisk truthyOptInt
  rcases hs : p.disk_size_gb with _ | n <;>
  rcases ho : p.os_type with _ | o <;>
  rcases hk : p.sku with _ | sk <;>
  rcases ht : p.tags with _ | t <;>
  simp_all [optTagsEq] <;>
  exact dictEq_refl htags



/-- A VM write does not move the resource group. -/
theorem applyVmWrite_rg (c : Cloud) (n : String) (vm : VM) :
    (applyVmWrite c n vm).rgLocation = c.rgLocation := rfl

/-- A VM write cannot create the disk. -/
theorem applyVmWrite_disk_none {c : Cloud} (n : String) (vm : VM) (h : c.disk = none) :
    (applyVmWrite c n vm).disk = none := by
  simp [applyVmWrite, h]

/-- A VM write that references the disk records the attachment. -/
theorem applyVmWrite_disk_refs {c : Cloud} {d : DiskDict} (n : String) (vm : VM)
    (h : c.disk = some d) (href : vmRefsDisk vm d = true) :
    (applyVmWrite c n vm).disk = some { d with managed_by := some n } := by
  simp [applyVmWrite, h, href]

/-- A VM write by the recorded holder that drops the reference clears
the attachment. -/
theorem applyVmWrite_disk_detached {c : Cloud} {d : DiskDict} (n : String) (vm : VM)
    (h : c.disk = some d) (href : vmRefsDisk vm d = false)
    (hmb : d.managed_by = some n) :
    (applyVmWrite c n vm).disk = some { d with managed_by := none } := by
  simp [applyVmWrite, h, href, hmb]

/-- Appending an entry referencing the disk id makes the VM reference
the disk. -/
theorem vmRefsDisk_append_entry (vm : VM) (d : DiskDict) (e : DataDisk)
    (he : e.diskId = some d.id) :
    vmRefsDisk { vm with dataDisks := vm.dataDisks ++ [e] } d = true := by
  simp [vmRefsDisk, List.any_append, he]

/-- The create-or-update block on the real path with a needed change:
the provider create call is issued with the full normalized target. -/
theorem present_block_apply (s : ModArgs) (di : Option DiskDict) (loc : String)
    (st : ExecResult) (hpc : (s.state == "present") = true)
    (hneed : (match di with
      | none => true
      | some d => is_different d (generate_managed_disk_property s loc)) = true) :
    present_block s false di loc st =
      { st with
        changed := true
        result := .fromDisk (some (applyDisk st.cloud.disk s.resource_group s.name
          (generate_managed_disk_property s loc)))
        cloud := { st.cloud with disk := some (applyDisk st.cloud.disk s.resource_group
          s.name (generate_managed_disk_property s loc)) }
        events := st.events ++ [.createOrUpdateDisk s.resource_group s.name
          (generate_managed_disk_property s loc)] } := by
  simp [present_block, hpc, hneed]

/-- Inversion of a successful `detach`: the written VM is the fetched
one with the name-matching entries filtered out. -/
theorem detach_inv {c : Cloud} {n : String} {dk : Option DiskDict} {c2 : Cloud}
    {ev : MEvent} (h : detach c n dk = .ok (c2, ev)) :
    ∃ vm d, findVm c.vms n = some vm ∧ dk = some d ∧
      c2 = applyVmWrite c n
        { vm with dataDisks := vm.dataDisks.filter (fun dd => !(ddMatchesName dd d.name)) } := by
  simp only [detach] at h
  (repeat' split at h)
  all_goals
    first
      | exact Except.noConfusion h
      | (injection h with hp
         injection hp with hp1 hp2
         exact ⟨_, _, by first | rfl | assumption, by first | rfl | assumption, hp1.symm⟩)

/-- Inversion of a successful `attach`: the written VM is the fetched
one with the new entry appended. -/
theorem attach_inv {c : Cloud} {n : String} {dk : Option DiskDict} {c2 : Cloud}
    {ev : MEvent} (h : attach c n dk = .ok (c2, ev)) :
    ∃ vm d, findVm c.vms n = some vm ∧ dk = some d ∧
      c2 = applyVmWrite c n
        { vm with dataDisks := vm.dataDisks ++
            [{ lun := nextLun vm.dataDisks, name := none, diskId := some d.id
               storage_account_type := d.storage_account_type
               create_option := some "attach" }] } := by
  simp only [attach] at h
  (repeat' split at h)
  all_goals
    first
      | exact Except.noConfusion h
      | (injection h with hp
         injection hp with hp1 hp2
         exact ⟨_, _, by first | rfl | assumption, by first | rfl | assumption, hp1.symm⟩)



/-- The attachment block on an error-free real run: it only ever
rewrites the disk's recorded attachment (never the diff-tracked
fields), and afterwards the recorded attachment equals the requested
one. -/
theorem managed_by_block_final (s : ModArgs) (di : Option DiskDict) (st : ExecResult)
    (he : st.error = none)
    (hres : st.result = .fromDisk st.cloud.disk)
    (hcur : current_vm_name st.cloud.disk = current_vm_name di)
    (hWFd : ∀ dP, st.cloud.disk = some dP →
        dP.id = diskIdOf s.resource_group s.name ∧ dP.name = s.name)
    (hWFv : ∀ vm ∈ st.cloud.vms, ∀ dd ∈ vm.dataDisks,
        dd.diskId = some (diskIdOf s.resource_group s.name) → ddMatchesName dd s.name = true)
    (he2 : (managed_by_block s false di st).error = none) :
    (managed_by_block s false di st).cloud.rgLocation = st.cloud.rgLocation ∧
    ((managed_by_block s false di st).cloud.disk.map fun x => { x with managed_by := none }) =
      (st.cloud.disk.map fun x => { x with managed_by := none }) ∧
    (∀ mb, s.managed_by = some mb →
      current_vm_name (managed_by_block s false di st).cloud.disk = mb) := by
  cases hm : s.managed_by with
  | none =>
    simp only [managed_by_block, he, hm, Option.isSome_none, Bool.false_eq_true, if_false]
    refine ⟨by trivial, by trivial, ?_⟩
    intro mb hmb
    try rw [hm] at hmb
    cases hmb
  | some mb0 =>
    by_cases hd0 : (mb0 == current_vm_name di) = true
    · simp only [managed_by_block, he, hm, hd0, Option.isSome_none, Bool.false_eq_true,
        if_false, if_true]
      refine ⟨by trivial, by trivial, ?_⟩
      intro mb hmb
      try rw [hm] at hmb
      injection hmb with hmb
      subst hmb
      rw [hcur]
      exact (beq_iff_eq.mp hd0).symm
    · have hd0f : (mb0 == current_vm_name di) = false := by
        revert hd0
        cases (mb0 == current_vm_name di) <;> simp
      simp only [managed_by_block, he, hm, hd0f, Option.isSome_none, Bool.false_eq_true,
        if_false] at he2 ⊢
      by_cases hcv : (current_vm_name di == "") = true
      · have hcv' : current_vm_name di = "" := by simpa using hcv
        have hmb0ne : (mb0 == "") = false := by rw [hcv'] at hd0f; exact hd0f
        simp only [hcv, if_true, hmb0ne, Bool.false_eq_true, if_false] at he2 ⊢
        cases hat : attach st.cloud mb0 (toDiskOpt st.result) with
        | error e => simp [hat] at he2
        | ok p =>
          rcases p with ⟨c3, ev⟩
          simp only [hat, Option.isSome_none, Bool.false_eq_true, if_false] at he2 ⊢
          obtain ⟨vmB, dAtt, hfB, hdk, hc3⟩ := attach_inv hat
          rw [hres] at hdk
          simp only [toDiskOpt] at hdk
          have href := vmRefsDisk_append_entry vmB dAtt
            { lun := nextLun vmB.dataDisks, name := none, diskId := some dAtt.id
              storage_account_type := dAtt.storage_account_type
              create_option := some "attach" } rfl
          have hdisk3 : c3.disk = some { dAtt with managed_by := some mb0 } := by
            rw [hc3]
            exact applyVmWrite_disk_refs _ _ hdk href
          refine ⟨?_, ?_, ?_⟩
          · rw [hc3]
            exact applyVmWrite_rg _ _ _
          · rw [hdisk3, hdk]
            rfl
          · intro mb hmb
            try rw [hm] at hmb
            injection hmb with hmb
            subst hmb
            rw [hdisk3]
            simp [current_vm_name]
      · have hcvf : (current_vm_name di == "") = false := by
          revert hcv
          cases (current_vm_name di == "") <;> simp
        have hcvne : current_vm_name di ≠ "" := by
          intro hx
          rw [hx] at hcvf
          simp at hcvf
        simp only [hcvf, Bool.false_eq_true, if_false] at he2 ⊢
        cases hdet : detach st.cloud (current_vm_name di) (toDiskOpt st.result) with
        | error e => simp [hdet] at he2
        | ok p =>
          rcases p with ⟨c2, ev1⟩
          simp only [hdet, Option.isSome_none, Bool.false_eq_true, if_false] at he2 ⊢
          obtain ⟨vmA, dDet, hfA, hdk, hc2⟩ := detach_inv hdet
          rw [hres] at hdk
          simp only [toDiskOpt] at hdk
          obtain ⟨hid, hname⟩ := hWFd dDet hdk
          have hmbP : dDet.managed_by = some (current_vm_name di) := by
            have hthis := hcur
            rw [hdk] at hthis
            simp only [current_vm_name] at hthis
            cases hmd : dDet.managed_by with
            | none =>
              rw [hmd] at hthis
              simp at hthis
              exact absurd hthis.symm hcvne
            | some v =>
              rw [hmd] at hthis
              simp only [Option.getD_some] at hthis
              rw [hthis]
              rfl
          have href : vmRefsDisk
              { vmA with dataDisks :=
                  vmA.dataDisks.filter (fun dd => !(ddMatchesName dd dDet.name)) }
              dDet = false := by
            rw [vmRefsDisk]
            rw [List.any_eq_false]
            intro dd hdd
            rw [List.mem_filter] at hdd
            obtain ⟨hdmem, hdfil⟩ := hdd
            have hnm : ddMatchesName dd dDet.name = false := by simpa using hdfil
            intro hcontra
            rw [Bool.or_eq_true] at hcontra
            rcases hcontra with hidm | hm2
            · rw [beq_iff_eq] at hidm
              have hmm := hWFv vmA (findVm_mem hfA) dd hdmem (by rw [hidm, hid])
              rw [← hname] at hmm
              rw [hmm] at hnm
              cases hnm
            · rw [hm2] at hnm
              cases hnm
          have hdisk2 : c2.disk = some { dDet with managed_by := none } := by
            rw [hc2]
            exact applyVmWrite_disk_detached _ _ hdk href hmbP
          by_cases hmbe : (mb0 == "") = true
          · simp only [hmbe, if_true, Option.isSome_none, Bool.false_eq_true, if_false]
              at he2 ⊢
            refine ⟨?_, ?_, ?_⟩
            · rw [hc2]
              exact applyVmWrite_rg _ _ _
            · rw [hdisk2, hdk]
              rfl
            · intro mb hmb
              try rw [hm] at hmb
              injection hmb with hmb
              subst hmb
              rw [hdisk2]
              simp only [current_vm_name, Option.getD_none]
              exact (beq_iff_eq.mp hmbe).symm
          · have hmbf : (mb0 == "") = false := by
              revert hmbe
              cases (mb0 == "") <;> simp
            simp only [hmbf, Bool.false_eq_true, if_false] at he2 ⊢
            cases hat : attach c2 mb0 (toDiskOpt st.result) with
            | error e => simp [hat] at he2
            | ok q =>
              rcases q with ⟨c3, ev2⟩
              simp only [hat, Option.isSome_none, Bool.false_eq_true, if_false] at he2 ⊢
              obtain ⟨vmB, dAtt, hfB, hdk2, hc3⟩ := attach_inv hat
              rw [hres] at hdk2
              simp only [toDiskOpt] at hdk2
              have hdd : dAtt = dDet := by
                rw [hdk] at hdk2
                injection hdk2 with hx
                exact hx.symm
              subst hdd
              have href2 := vmRefsDisk_append_entry vmB
                { dAtt with managed_by := none }
                { lun := nextLun vmB.dataDisks, name := none, diskId := some dAtt.id
                  storage_account_type := dAtt.storage_account_type
                  create_option := some "attach" } rfl
              have hdisk3 : c3.disk =
                  some { dAtt with managed_by := some mb0 } := by
                rw [hc3]
                have := applyVmWrite_disk_refs mb0
                  { vmB with dataDisks := vmB.dataDisks ++
                      [{ lun := nextLun vmB.dataDisks, name := none, diskId := some dAtt.id
                         storage_account_type := dAtt.storage_account_type
                         create_option := some "attach" }] }
                  hdisk2 href2
                rw [this]
              refine ⟨?_, ?_, ?_⟩
              · rw [hc3, applyVmWrite_rg, hc2]
                exact applyVmWrite_rg _ _ _
              · rw [hdisk3, hdk]
                rfl
              · intro mb hmb
                try rw [hm] at hmb
                injection hmb with hmb
                subst hmb
                rw [hdisk3]
                simp [current_vm_name]



/-- A disk create/update does not change the recorded attachment. -/
theorem current_vm_name_applyDisk (old : Option DiskDict) (rg nm : String) (p : DiskParams) :
    current_vm_name (some (applyDisk old rg nm p)) = current_vm_name old := by
  cases old <;> simp [current_vm_name, applyDisk]

/-- The state left by an error-free real run on a well-formed provider:
the resource group is unchanged; on `state=present` the disk exists and
no longer differs from the normalized target; on `state=absent` the
disk is gone; and a supplied `managed_by` is now the recorded
attachment (unless the disk was deleted). -/
theorem run1_spec (s : ModArgs) (c : Cloud)
    (hWFtags : ∀ t, s.tags = some t → (t.map Prod.fst).Nodup)
    (hWFdisk : ∀ d0, c.disk = some d0 →
        d0.id = diskIdOf s.resource_group s.name ∧ d0.name = s.name)
    (hWFvms : ∀ vm ∈ c.vms, ∀ dd ∈ vm.dataDisks,
        dd.diskId = some (diskIdOf s.resource_group s.name) → ddMatchesName dd s.name = true)
    (herr : (exec_module s false c).error = none) :
    (exec_module s false c).cloud.rgLocation = c.rgLocation ∧
    (s.state = "present" → ∃ d1, (exec_module s false c).cloud.disk = some d1 ∧
        is_different d1 (generate_managed_disk_property s (resolve_location s c)) = false) ∧
    (s.state = "absent" → (exec_module s false c).cloud.disk = none) ∧
    (∀ mb, s.managed_by = some mb →
        current_vm_name (exec_module s false c).cloud.disk = mb ∨
        (exec_module s false c).cloud.disk = none) := by
  simp only [exec_module] at herr ⊢
  set st0 : ExecResult :=
    { changed := false, result := .fromDisk c.disk, cloud := c, events := []
      error := none } with hst0
  have hstage : ∃ stP, present_block s false c.disk (resolve_location s c) st0 = stP ∧
      stP.error = none ∧ stP.result = .fromDisk stP.cloud.disk ∧
      stP.cloud.rgLocation = c.rgLocation ∧ stP.cloud.vms = c.vms ∧
      current_vm_name stP.cloud.disk = current_vm_name c.disk ∧
      (∀ dP, stP.cloud.disk = some dP →
          dP.id = diskIdOf s.resource_group s.name ∧ dP.name = s.name) ∧
      ((s.state == "present") = true → ∃ d1, stP.cloud.disk = some d1 ∧
          is_different d1 (generate_managed_disk_property s (resolve_location s c)) = false) ∧
      ((s.state == "present") = false → stP = st0) := by
    by_cases hpc : (s.state == "present") = true
    · by_cases hneed : (match c.disk with
          | none => true
          | some d => is_different d (generate_managed_disk_property s
              (resolve_location s c))) = true
      · refine ⟨_, present_block_apply s c.disk (resolve_location s c) st0 hpc hneed,
          rfl, rfl, rfl, rfl, ?_, ?_, ?_, ?_⟩
        · exact current_vm_name_applyDisk c.disk s.resource_group s.name _
        · intro dP hdP
          injection hdP with hdP
          subst hdP
          exact ⟨rfl, rfl⟩
        · intro _
          refine ⟨_, rfl, ?_⟩
          exact is_different_applyDisk c.disk s.resource_group s.name _
            (fun t ht => hWFtags t ht)
        · intro hq
          rw [hpc] at hq
          cases hq
      · have hneedf : (match c.disk with
            | none => true
            | some d => is_different d (generate_managed_disk_property s
                (resolve_location s c))) = false := by
          revert hneed
          cases (match c.disk with
            | none => true
            | some d => is_different d (generate_managed_disk_property s
                (resolve_location s c))) <;> simp
        have hcond : present_cond s c.disk (resolve_location s c) = false := by
          simp [present_cond, hpc, hneedf]
        refine ⟨st0, present_block_id _ _ _ _ _ hcond, rfl, rfl, rfl, rfl, rfl, ?_, ?_,
          fun _ => rfl⟩
        · intro dP hdP
          exact hWFdisk dP hdP
        · intro _
          cases hc : c.disk with
          | none => rw [hc] at hneedf; cases hneedf
          | some d0 =>
            refine ⟨d0, rfl, ?_⟩
            rw [hc] at hneedf
            exact hneedf
    · have hcond : present_cond s c.disk (resolve_location s c) = false := by
        have : (s.state == "present") = false := by
          revert hpc
          cases (s.state == "present") <;> simp
        simp [present_cond, this]
      have hpcf : (s.state == "present") = false := by
        revert hpc
        cases (s.state == "present") <;> simp
      refine ⟨st0, present_block_id _ _ _ _ _ hcond, rfl, rfl, rfl, rfl, rfl, ?_, ?_,
        fun _ => rfl⟩
      · intro dP hdP
        exact hWFdisk dP hdP
      · intro hq
        rw [hpcf] at hq
        cases hq
  obtain ⟨stP, hPeq, hPerr, hPres, hPrg, hPvms, hPcur, hPwfd, hPdiff, hPid⟩ := hstage
  rw [hPeq] at herr ⊢
  have herr2 : (managed_by_block s false c.disk stP).error = none := by
    rw [absent_block_error] at herr
    exact herr
  obtain ⟨hrg2, herase, hcur2⟩ :=
    managed_by_block_final s c.disk stP hPerr hPres hPcur hPwfd
      (by rw [hPvms]; exact hWFvms) herr2
  by_cases habs : (s.state == "absent" && c.disk.isSome) = true
  · rw [absent_block_delete s c.disk _ habs herr2]
    refine ⟨?_, ?_, ?_, ?_⟩
    · simp only []
      rw [hrg2, hPrg]
    · intro hpres
      rw [hpres] at habs
      simp at habs
    · intro _
      rfl
    · intro mb hmb
      right
      rfl
  · have habsf : (s.state == "absent" && c.disk.isSome) = false := by
      revert habs
      cases (s.state == "absent" && c.disk.isSome) <;> simp
    rw [absent_block_id _ _ _ _ habsf]
    refine ⟨?_, ?_, ?_, ?_⟩
    · rw [hrg2, hPrg]
    · intro hpres
      obtain ⟨d1, hd1, hdiff1⟩ := hPdiff (by rw [hpres]; rfl)
      cases hs2 : (managed_by_block s false c.disk stP).cloud.disk with
      | none =>
        rw [hs2, hd1] at herase
        simp at herase
      | some d2 =>
        rw [hs2, hd1] at herase
        simp only [Option.map_some'] at herase
        injection herase with herase
        refine ⟨d2, rfl, ?_⟩
        have e1 := is_different_erase d2
          (generate_managed_disk_property s (resolve_location s c)) none
        have e2 := is_different_erase d1
          (generate_managed_disk_property s (resolve_location s c)) none
        rw [← e1, herase, e2]
        exact hdiff1
    · intro habs2
      have hdnone : c.disk = none := by
        rw [habs2] at habsf
        simp at habsf
        cases hcd : c.disk with
        | none => rfl
        | some d0 => rw [hcd] at habsf; simp at habsf
      have hstP : stP = st0 := hPid (by rw [habs2]; rfl)
      have hsP : stP.cloud.disk = none := by
        rw [hstP, hst0]
        exact hdnone
      cases hs2 : (managed_by_block s false c.disk stP).cloud.disk with
      | none => rfl
      | some d2 =>
        rw [hs2, hsP] at herase
        simp at herase
    · intro mb hmb
      left
      exact hcur2 mb hmb



/-- C3 (amended): for every input over a well-formed provider state
(tag dicts duplicate-free; the stored disk record carries the canonical
id and name; VM entries referencing the disk id bear its name), if two
successive real runs both complete without error - the second observing
the state produced by the first - then the second run reports
changed=false.  (The first run reports changed=true only when the
observed state differs from the target, not always.) -/
theorem C3_idempotence_amended (s : ModArgs) (c : Cloud)
    (hWFtags : ∀ t, s.tags = some t → (t.map Prod.fst).Nodup)
    (hWFdisk : ∀ d0, c.disk = some d0 →
        d0.id = diskIdOf s.resource_group s.name ∧ d0.name = s.name)
    (hWFvms : ∀ vm ∈ c.vms, ∀ dd ∈ vm.dataDisks,
        dd.diskId = some (diskIdOf s.resource_group s.name) → ddMatchesName dd s.name = true)
    (h1 : (exec_module s false c).error = none)
    (h2 : (exec_module s false (exec_module s false c).cloud).error = none) :
    (exec_module s false (exec_module s false c).cloud).changed = false := by
  obtain ⟨hrg, hF1, hF3, hF2⟩ := run1_spec s c hWFtags hWFdisk hWFvms h1
  set c1 := (exec_module s false c).cloud with hc1
  rw [exec_module_changed s false c1 h2]
  have hres_eq : resolve_location s c1 = resolve_location s c := by
    unfold resolve_location
    rw [hrg]
  have hp : present_cond s c1.disk (resolve_location s c1) = false := by
    by_cases hpres : s.state = "present"
    · obtain ⟨d1, hd1, hdiff1⟩ := hF1 hpres
      rw [hres_eq]
      simp [present_cond, hd1, hdiff1]
    · have hx : (s.state == "present") = false := by
        rw [beq_eq_false_iff_ne]
        exact hpres
      simp [present_cond, hx]
  have ha : absent_cond s c1.disk = false := by
    by_cases habs : s.state = "absent"
    · have hx := hF3 habs
      simp [absent_cond, hx]
    · have hx : (s.state == "absent") = false := by
        rw [beq_eq_false_iff_ne]
        exact habs
      simp [absent_cond, hx]
  have hm : managed_cond s c1.disk = false := by
    cases hmb : s.managed_by with
    | none => simp [managed_cond, hmb]
    | some mb =>
      rcases hF2 mb hmb with hcv | hnone
      · simp [managed_cond, hmb, hcv]
      · by_cases hmbe : mb = ""
        · subst hmbe
          simp [managed_cond, hmb, hnone, current_vm_name]
        · exfalso
          obtain ⟨e, hat⟩ := attach_none_err c1 mb
          have hmbf : (mb == "") = false := beq_eq_false_iff_ne.mpr hmbe
          have hrun2 : (exec_module s false c1).error = some e := by
            simp only [exec_module]
            rw [present_block_id _ _ _ _ _ hp]
            rw [absent_block_error]
            simp [managed_by_block, hmb, hnone, current_vm_name, hmbf, toDiskOpt, hat]
          rw [hrun2] at h2
          cases h2
  rw [hp, hm, ha]
  rfl



/-- C3, counterexample: running the reconciliation on a provider state
already identical to the target yields changed=false on the FIRST run,
refuting the claim that the first of two successive runs always reports
changed=true. -/
theorem C3_counterexample :
    (exec_module specBase false cloudDiskOnly).changed = false := by decide

/-- C3 witness: create-then-recheck of the baseline input from an empty
provider: the second run reports changed=false. -/
theorem C3_idempotence_amended_witness :
    (exec_module specBase false (exec_module specBase false cloudEmpty).cloud).changed =
      false :=
  C3_idempotence_amended specBase cloudEmpty (fun t ht => nomatch ht)
    (fun d0 h => nomatch h) (by intro vm hvm; simp [cloudEmpty] at hvm)
    (by decide) (by decide)

end ManagedDisk
